import Mathlib

/-!
Verification of the device-automation discovery core
(`homeassistant/components/device_automation/__init__.py`).

The embedding models the external collaborators (device registry, entity
registry, config-entry manager, integration loader) as read-only functions
collected in an `Env`, and the two core functions
`_async_get_device_automations_from_domain` and
`_async_get_device_automations` as pure functions over that environment.
A plugin listing call may raise (modelled as `Except.error`), return
Python `None` (modelled as `Option.none`), or return a list of opaque
descriptors (type parameter `α`).  Each core function additionally returns
the trace of plugin calls it issued, so that "no plugin call is made" is a
provable statement.  `asyncio.gather` is modelled twice: by the
deterministic in-order `gatherExcept`, and by the schedule-parametrised
`runSched`, which executes the fan-out in an arbitrary completion order
and stores each result into its own slot, as the real gather does.
-/

deriving instance DecidableEq for Except

namespace DeviceAutomation

/-- Entry of the device registry for one device: the list of config-entry ids
the device is registered under (`device.config_entries` in the source). -/
structure DeviceEntry where
  config_entries : List String
deriving DecidableEq, Repr

/-- Entry of the entity registry: the source only reads `entity.entity_id`. -/
structure EntityEntry where
  entity_id : String
deriving DecidableEq, Repr

/-- Outcome of invoking one plugin listing operation with a device id: the call
may raise (`Except.error` carrying the message), return Python `None`
(`Option.none`), or return a list of opaque automation descriptors. -/
abbrev ListingResult (α : Type) := Except String (Option (List α))

/-- A device-automation platform module: a partial map from attribute name
(the `fname` strings `async_get_actions` / `async_get_conditions` /
`async_get_triggers`) to the listing operation, modelling the source's
`hasattr(platform, fname)` / `getattr(platform, fname)` introspection. -/
structure Platform (α : Type) where
  attrs : String → Option (String → ListingResult α)

/-- An integration as returned by `async_get_integration`:
`integration.get_platform("device_automation")` either yields the platform
module or raises `ImportError`, modelled by `Option`. -/
structure Integration (α : Type) where
  platform : Option (Platform α)

/-- The external collaborators consumed read-only by the core:
`device_registry.async_get`, `async_entries_for_device`,
`hass.config_entries.async_get_entry(entry_id).domain`, and
`async_get_integration` (where `none` models `IntegrationNotFound`). -/
structure Env (α : Type) where
  device_registry : String → Option DeviceEntry
  entity_registry : String → List EntityEntry
  config_entry_domain : String → String
  integrations : String → Option (Integration α)

/-- Source `split_entity_id`: split an entity id `<domain>.<object>` at the
first dot into the domain part and the object part. -/
def split_entity_id (entity_id : String) : String × String :=
  (String.mk (entity_id.data.takeWhile (fun c => c ≠ '.')),
   String.mk ((entity_id.data.dropWhile (fun c => c ≠ '.')).drop 1))

/-- Insertion into the domain set (`domains.add(...)` on a Python `set`),
determinised as an insertion-ordered duplicate-free list. -/
def addDomain (domains : List String) (d : String) : List String :=
  if d ∈ domains then domains else domains ++ [d]

/-- The domain set built by `_async_get_device_automations`: the domain of
every config entry of the device, then the domain part of every entity id
owned by the device, deduplicated. -/
def buildDomains {α : Type} (env : Env α) (device : DeviceEntry)
    (device_id : String) : List String :=
  let ds := device.config_entries.foldl
    (fun acc entry_id => addDomain acc (env.config_entry_domain entry_id)) []
  (env.entity_registry device_id).foldl
    (fun acc entity => addDomain acc (split_entity_id entity.entity_id).1) ds

/-- One observable plugin call: resolving an integration for a domain
(`async_get_integration`), or invoking a listing operation on a platform. -/
inductive Event where
  | getIntegration (domain : String)
  | listCall (domain : String) (fname : String)
deriving DecidableEq, Repr

/-- Domains for which an integration resolution call was issued, in order. -/
def resolutionEvents (events : List Event) : List String :=
  events.filterMap (fun ev =>
    match ev with
    | .getIntegration d => some d
    | .listCall _ _ => none)

/-- Source `_async_get_device_automations_from_domain`: resolve the
integration (an `IntegrationNotFound` is caught, logged and turned into
`None`), get its `device_automation` platform (an `ImportError` is caught and
turned into `None`), and, when the platform has the `fname` attribute, invoke
it; when the attribute is missing the function falls through and returns
`None`.  Alongside the result the trace of issued plugin calls is returned. -/
def _async_get_device_automations_from_domain {α : Type} (env : Env α)
    (domain fname device_id : String) : ListingResult α × List Event :=
  match env.integrations domain with
  | none => (.ok none, [.getIntegration domain])
  | some integration =>
    match integration.platform with
    | none => (.ok none, [.getIntegration domain])
    | some platform =>
      match platform.attrs fname with
      | none => (.ok none, [.getIntegration domain])
      | some op => (op device_id, [.getIntegration domain, .listCall domain fname])

/-- Join of `asyncio.gather` over fallible tasks, determinised in list order:
when every task succeeds the results are collected in order, and when some
task raises the first raising task's error propagates. -/
def gatherExcept {ε β : Type} : List (Except ε β) → Except ε (List β)
  | [] => .ok []
  | .error e :: _ => .error e
  | .ok b :: rest => (gatherExcept rest).map (fun l => b :: l)

/-- Merge loop of `_async_get_device_automations`: extend the accumulator with
every per-domain result that is not `None`. -/
def mergeAutomations {α : Type} (results : List (Option (List α))) : List α :=
  results.foldl
    (fun automations r =>
      match r with
      | none => automations
      | some l => automations ++ l)
    []

/-- Request-level failures of the aggregation: the device id missing from the
device registry, or an uncaught plugin error escaping the gather. -/
inductive AggError where
  | deviceNotFound
  | pluginError (msg : String)
deriving DecidableEq, Repr

/-- Gather the per-domain listing results and merge the non-`None` ones; a
plugin error escapes uncaught and fails the whole aggregation. -/
def aggregateFrom {α : Type} (results : List (ListingResult α)) :
    Except AggError (List α) :=
  match gatherExcept results with
  | .error e => .error (.pluginError e)
  | .ok oks => .ok (mergeAutomations oks)

/-- Source `_async_get_device_automations`: look the device up in the device
registry (a miss makes the request fail before any plugin call), build the
domain set, fan out one per-domain fetch per domain, join, and merge.  The
second component is the trace of plugin calls issued by the request. -/
def _async_get_device_automations {α : Type} (env : Env α)
    (fname device_id : String) : Except AggError (List α) × List Event :=
  match env.device_registry device_id with
  | none => (.error .deviceNotFound, [])
  | some device =>
    let domains := buildDomains env device device_id
    let fetched := domains.map
      (fun d => _async_get_device_automations_from_domain env d fname device_id)
    (aggregateFrom (fetched.map Prod.fst), (fetched.map Prod.snd).flatten)

/-- An inbound websocket command message after JSON decoding: the `type`
field, the `device_id` field (a string by schema), and the correlation id. -/
structure WsMsg where
  type : String
  device_id : String
  id : Nat
deriving DecidableEq, Repr

/-- Shape validation performed by the `websocket_command` decorator's
voluptuous schema: the `type` field must equal the registered command name and
`device_id` must be a string, which the field type of `WsMsg` guarantees; no
further constraint is placed on the `device_id` value. -/
def schemaAccepts (cmd : String) (msg : WsMsg) : Bool :=
  msg.type == cmd

/-- Handler for `device_automation/action/list`: extract `device_id` from the
message and aggregate with `fname = "async_get_actions"`. -/
def websocket_device_automation_list_actions {α : Type} (env : Env α)
    (msg : WsMsg) : Except AggError (List α) × List Event :=
  _async_get_device_automations env "async_get_actions" msg.device_id

/-- Handler for `device_automation/condition/list`: extract `device_id` from
the message and aggregate with `fname = "async_get_conditions"`. -/
def websocket_device_automation_list_conditions {α : Type} (env : Env α)
    (msg : WsMsg) : Except AggError (List α) × List Event :=
  _async_get_device_automations env "async_get_conditions" msg.device_id

/-- Handler for `device_automation/trigger/list`: extract `device_id` from the
message and aggregate with `fname = "async_get_triggers"`. -/
def websocket_device_automation_list_triggers {α : Type} (env : Env α)
    (msg : WsMsg) : Except AggError (List α) × List Event :=
  _async_get_device_automations env "async_get_triggers" msg.device_id

/-- Decidable test that a listing call did not raise. -/
def listingOk {ε β : Type} : Except ε β → Bool
  | .ok _ => true
  | .error _ => false

/-- Descriptors a per-domain result contributes to the merged sequence:
nothing for an absent (`None`) result, the plugin's own list otherwise. -/
def contributed {α : Type} : ListingResult α → List α
  | .ok (some l) => l
  | .ok none => []
  | .error _ => []

/-- Execution of the fan-out under an explicit completion order: `sched`
lists task indices in the order they complete, and each completed task stores
its (pure) result into its own slot, as `asyncio.gather` does; indices out of
range and repeated completions change nothing. -/
def runSched {β : Type} (tasks : List β) (sched : List Nat) :
    List (Option β) :=
  sched.foldl
    (fun slots i =>
      match tasks[i]? with
      | none => slots
      | some b => slots.set i (some b))
    (List.replicate tasks.length none)

/-- Join barrier: the gather result is available once every slot is filled. -/
def allFilled {β : Type} : List (Option β) → Option (List β)
  | [] => some []
  | none :: _ => none
  | some b :: rest => (allFilled rest).map (fun l => b :: l)

/-- Number of per-domain fetch tasks a request fans out to. -/
def fanoutWidth {α : Type} (env : Env α) (device_id : String) : Nat :=
  match env.device_registry device_id with
  | none => 0
  | some device => (buildDomains env device device_id).length

/-- The aggregation with the fan-in performed under completion order `sched`:
`none` when the schedule never completes some task (the join barrier never
opens), otherwise the merged request result. -/
def aggWithSchedule {α : Type} (env : Env α) (fname device_id : String)
    (sched : List Nat) : Option (Except AggError (List α)) :=
  match env.device_registry device_id with
  | none => some (.error .deviceNotFound)
  | some device =>
    let domains := buildDomains env device device_id
    let tasks := domains.map
      (fun d => (_async_get_device_automations_from_domain env d fname device_id).1)
    match allFilled (runSched tasks sched) with
    | none => none
    | some fetched => some (aggregateFrom fetched)

/-- Environment whose device registry knows no device at all. -/
def envMiss : Env Nat :=
  { device_registry := fun _ => none,
    entity_registry := fun _ => [],
    config_entry_domain := fun _ => "",
    integrations := fun _ => none }

/-- Test device `D3`: registered under one config entry owned by `climate`. -/
def deviceD3 : DeviceEntry := ⟨["entryC"]⟩

/-- Environment in which device `D3`'s only relevant domain is `climate`,
whose plugin raises `"boom"` when listing conditions. -/
def envClimate : Env Nat :=
  { device_registry := fun d => if d = "D3" then some deviceD3 else none,
    entity_registry := fun _ => [],
    config_entry_domain := fun _ => "climate",
    integrations := fun d =>
      if d = "climate" then
        some ⟨some ⟨fun f =>
          if f = "async_get_conditions" then some (fun _ => .error "boom")
          else none⟩⟩
      else none }

/-- Test device `D` of the spec scenario: config entries `e1` and `e2`. -/
def deviceD : DeviceEntry := ⟨["e1", "e2"]⟩

/-- Environment of the spec scenario: device `D` has config entries owned by
`alarm` and `light` and one entity `sensor.outside_temp`; `alarm` resolves to
no integration, `light` contributes one trigger descriptor, and `sensor` has
a platform that exposes no listing operation. -/
def envScenario : Env Nat :=
  { device_registry := fun d => if d = "D" then some deviceD else none,
    entity_registry := fun d => if d = "D" then [⟨"sensor.outside_temp"⟩] else [],
    config_entry_domain := fun e =>
      if e = "e1" then "alarm" else if e = "e2" then "light" else "",
    integrations := fun d =>
      if d = "light" then
        some ⟨some ⟨fun f =>
          if f = "async_get_triggers" then some (fun _ => .ok (some [1]))
          else none⟩⟩
      else if d = "sensor" then some ⟨some ⟨fun _ => none⟩⟩
      else none }

/-- Test device `D0`: registered, but under no config entry. -/
def deviceD0 : DeviceEntry := ⟨[]⟩

/-- Environment in which device `D0` has zero relevant domains. -/
def envNoDomains : Env Nat :=
  { device_registry := fun d => if d = "D0" then some deviceD0 else none,
    entity_registry := fun _ => [],
    config_entry_domain := fun _ => "",
    integrations := fun _ => none }

/-- Test device `D9`: config entries owned by `humid` and `lamp`. -/
def deviceD9 : DeviceEntry := ⟨["h1", "l1"]⟩

/-- Environment in which the `humid` plugin's action listing returns `None`
while the `lamp` plugin contributes one action descriptor. -/
def envNoneOp : Env Nat :=
  { device_registry := fun d => if d = "D9" then some deviceD9 else none,
    entity_registry := fun _ => [],
    config_entry_domain := fun e => if e = "h1" then "humid" else "lamp",
    integrations := fun d =>
      if d = "humid" then
        some ⟨some ⟨fun f =>
          if f = "async_get_actions" then some (fun _ => .ok none) else none⟩⟩
      else if d = "lamp" then
        some ⟨some ⟨fun f =>
          if f = "async_get_actions" then some (fun _ => .ok (some [7]))
          else none⟩⟩
      else none }

lemma addDomain_nodup {l : List String} (h : l.Nodup) (d : String) :
    (addDomain l d).Nodup := by
  unfold addDomain
  split
  · exact h
  · next hd =>
    simp [List.nodup_append, h, hd]

lemma addDomain_toFinset (l : List String) (d : String) :
    (addDomain l d).toFinset = insert d l.toFinset := by
  unfold addDomain
  split
  · next hd => exact (Finset.insert_eq_self.mpr (List.mem_toFinset.mpr hd)).symm
  · simp [List.toFinset_append, Finset.insert_eq, Finset.union_comm]

lemma foldl_addDomain_nodup {γ : Type} (f : γ → String) :
    ∀ (xs : List γ) (acc : List String), acc.Nodup →
      (xs.foldl (fun a x => addDomain a (f x)) acc).Nodup := by
  intro xs
  induction xs with
  | nil => intro acc h; simpa using h
  | cons x xs ih =>
    intro acc h
    simpa [List.foldl_cons] using ih (addDomain acc (f x)) (addDomain_nodup h (f x))

lemma foldl_addDomain_toFinset {γ : Type} (f : γ → String) :
    ∀ (xs : List γ) (acc : List String),
      (xs.foldl (fun a x => addDomain a (f x)) acc).toFinset
        = acc.toFinset ∪ (xs.map f).toFinset := by
  intro xs
  induction xs with
  | nil => intro acc; simp
  | cons x xs ih =>
    intro acc
    rw [List.foldl_cons, ih, addDomain_toFinset]
    ext a
    simp only [Finset.mem_union, Finset.mem_insert, List.map_cons, List.toFinset_cons,
      List.mem_toFinset]
    tauto

lemma buildDomains_nodup {α : Type} (env : Env α) (device : DeviceEntry)
    (device_id : String) : (buildDomains env device device_id).Nodup := by
  unfold buildDomains
  exact foldl_addDomain_nodup _ _ _
    (foldl_addDomain_nodup _ _ _ (by simp))

lemma buildDomains_toFinset {α : Type} (env : Env α) (device : DeviceEntry)
    (device_id : String) :
    (buildDomains env device device_id).toFinset
      = (device.config_entries.map env.config_entry_domain).toFinset
        ∪ ((env.entity_registry device_id).map
            (fun e => (split_entity_id e.entity_id).1)).toFinset := by
  unfold buildDomains
  rw [foldl_addDomain_toFinset, foldl_addDomain_toFinset]
  simp [Finset.union_assoc]

lemma resolutionEvents_from_domain {α : Type} (env : Env α)
    (d fname device_id : String) :
    resolutionEvents (_async_get_device_automations_from_domain env d fname device_id).2
      = [d] := by
  unfold _async_get_device_automations_from_domain
  split
  · rfl
  · split
    · rfl
    · split
      · rfl
      · rfl

lemma mergeAutomations_eq_flatten {α : Type} (rs : List (Option (List α))) :
    mergeAutomations rs = (rs.map (fun r => r.getD [])).flatten := by
  have key : ∀ (rs : List (Option (List α))) (acc : List α),
      rs.foldl
        (fun automations r =>
          match r with
          | none => automations
          | some l => automations ++ l) acc
        = acc ++ (rs.map (fun r => r.getD [])).flatten := by
    intro rs
    induction rs with
    | nil => intro acc; simp
    | cons r rest ih =>
      intro acc
      cases r with
      | none => simp [List.foldl_cons, ih]
      | some l => simp [List.foldl_cons, ih]
  simpa using key rs []

lemma aggregateFrom_cons_error {α : Type} (e : String)
    (rs : List (ListingResult α)) :
    aggregateFrom (.error e :: rs) = .error (.pluginError e) := rfl

lemma aggregateFrom_cons_ok {α : Type} (o : Option (List α))
    (rs : List (ListingResult α)) :
    aggregateFrom (.ok o :: rs)
      = (aggregateFrom rs).map (fun l => o.getD [] ++ l) := by
  unfold aggregateFrom
  cases h : gatherExcept rs with
  | error e => simp [gatherExcept, h, Except.map]
  | ok oks => simp [gatherExcept, h, Except.map, mergeAutomations_eq_flatten]

lemma gatherExcept_error_of {ε β : Type} (e : ε) :
    ∀ (l : List (Except ε β)), (∃ x ∈ l, x = .error e) →
      (∀ x ∈ l, x = .error e ∨ listingOk x = true) →
      gatherExcept l = .error e := by
  intro l
  induction l with
  | nil =>
    rintro ⟨x, hx, _⟩ _
    exact absurd hx (List.not_mem_nil x)
  | cons x rest ih =>
    rintro ⟨y, hy, hye⟩ hall
    rcases hall x (List.mem_cons_self x rest) with hx | hx
    · subst hx; rfl
    · rcases x with e' | b
      · simp [listingOk] at hx
      · have hmem : ∃ y ∈ rest, y = .error e := by
          rcases List.mem_cons.mp hy with h | h
          · subst h; simp at hye
          · exact ⟨y, h, hye⟩
        have hrest := ih hmem (fun z hz => hall z (List.mem_cons_of_mem _ hz))
        simp [gatherExcept, hrest, Except.map]

lemma contributed_ok {α : Type} (o : Option (List α)) :
    contributed (.ok o) = o.getD [] := by
  cases o <;> rfl

lemma aggregateFrom_all_ok {α : Type} :
    ∀ (rs : List (ListingResult α)), (∀ x ∈ rs, listingOk x = true) →
      aggregateFrom rs = .ok ((rs.map contributed).flatten) := by
  intro rs
  induction rs with
  | nil => intro _; rfl
  | cons x rest ih =>
    intro h
    have hx := h x (List.mem_cons_self x rest)
    rcases x with e | o
    · simp [listingOk] at hx
    · rw [List.map_cons, aggregateFrom_cons_ok,
        ih (fun y hy => h y (List.mem_cons_of_mem _ hy))]
      simp [contributed_ok, Except.map]

lemma aggregateFrom_map_congr {α : Type} (f g : String → ListingResult α) :
    ∀ (l : List String),
      (∀ x ∈ l, f x = g x ∨ (f x = .ok none ∧ g x = .ok (some []))) →
      aggregateFrom (l.map f) = aggregateFrom (l.map g) := by
  intro l
  induction l with
  | nil => intro _; rfl
  | cons x rest ih =>
    intro h
    have hrest := ih (fun y hy => h y (List.mem_cons_of_mem _ hy))
    rcases h x (List.mem_cons_self x rest) with hx | ⟨hfx, hgx⟩
    · rw [List.map_cons, List.map_cons, hx]
      cases hg : g x with
      | error e => rw [aggregateFrom_cons_error, aggregateFrom_cons_error]
      | ok o => rw [aggregateFrom_cons_ok, aggregateFrom_cons_ok, hrest]
    · rw [List.map_cons, List.map_cons, hfx, hgx,
        aggregateFrom_cons_ok, aggregateFrom_cons_ok, hrest]
      simp

lemma agg_eq_of_device {α : Type} (env : Env α) (fname device_id : String)
    (device : DeviceEntry) (h : env.device_registry device_id = some device) :
    _async_get_device_automations env fname device_id
      = (aggregateFrom ((buildDomains env device device_id).map
            (fun d => (_async_get_device_automations_from_domain env d fname device_id).1)),
         ((buildDomains env device device_id).map
            (fun d => (_async_get_device_automations_from_domain env d fname device_id).2)).flatten) := by
  simp only [_async_get_device_automations, h, List.map_map]
  rfl

lemma runSched_foldl_spec {β : Type} (tasks : List β) :
    ∀ (sched : List Nat) (init : List (Option β)), init.length = tasks.length →
      (sched.foldl
        (fun slots i =>
          match tasks[i]? with
          | none => slots
          | some b => slots.set i (some b)) init).length = tasks.length
      ∧ ∀ j, (hj : j < tasks.length) →
          (sched.foldl
            (fun slots i =>
              match tasks[i]? with
              | none => slots
              | some b => slots.set i (some b)) init)[j]?
            = if j ∈ sched then some (some (tasks[j])) else init[j]? := by
  intro sched
  induction sched with
  | nil =>
    intro init hlen
    exact ⟨hlen, fun j hj => by simp⟩
  | cons i rest ih =>
    intro init hlen
    have hstep : (match tasks[i]? with
        | none => init
        | some b => init.set i (some b)).length = tasks.length := by
      cases h : tasks[i]? <;> simp [hlen]
    obtain ⟨hl, hg⟩ := ih _ hstep
    constructor
    · simpa [List.foldl_cons] using hl
    · intro j hj
      rw [List.foldl_cons, hg j hj]
      by_cases hjr : j ∈ rest
      · simp [hjr]
      · by_cases hij : j = i
        · subst hij
          have hjt : tasks[j]? = some (tasks[j]) := List.getElem?_eq_getElem hj
          have hjl : j < init.length := by rw [hlen]; exact hj
          simp [hjr, hjt, List.getElem?_set_eq_of_lt _ hjl]
        · have hmem : (j ∈ i :: rest) = False := by
            simp [List.mem_cons, hij, hjr]
          cases ht : tasks[i]? with
          | none => simp [hmem, ht, hjr]
          | some b =>
            simp [hmem, ht, hjr, List.getElem?_set_ne (fun he => hij he.symm)]

lemma runSched_complete {β : Type} (tasks : List β) (sched : List Nat)
    (h : ∀ i, i < tasks.length → i ∈ sched) :
    runSched tasks sched = tasks.map some := by
  obtain ⟨hl, hg⟩ := runSched_foldl_spec tasks sched
    (List.replicate tasks.length none) (by simp)
  apply List.ext_getElem?
  intro j
  by_cases hj : j < tasks.length
  · have := hg j hj
    unfold runSched
    rw [this]
    simp [h j hj, List.getElem?_eq_getElem hj]
  · have h1 : (runSched tasks sched)[j]? = none := by
      apply List.getElem?_eq_none
      unfold runSched
      rw [hl]
      omega
    have h2 : (tasks.map some)[j]? = none := by
      apply List.getElem?_eq_none
      rw [List.length_map]
      omega
    rw [h1, h2]

lemma allFilled_map_some {β : Type} : ∀ (l : List β),
    allFilled (l.map some) = some l := by
  intro l
  induction l with
  | nil => rfl
  | cons b rest ih => simp [allFilled, ih]

lemma aggWithSchedule_eq_seq {α : Type} (env : Env α) (fname device_id : String)
    (sched : List Nat) (h : ∀ i, i < fanoutWidth env device_id → i ∈ sched) :
    aggWithSchedule env fname device_id sched
      = some (_async_get_device_automations env fname device_id).1 := by
  cases hdev : env.device_registry device_id with
  | none =>
    simp only [aggWithSchedule, _async_get_device_automations, hdev]
  | some device =>
    have hw : fanoutWidth env device_id = (buildDomains env device device_id).length := by
      unfold fanoutWidth
      rw [hdev]
    have hcomp : ∀ i, i < ((buildDomains env device device_id).map
        (fun d => (_async_get_device_automations_from_domain env d fname device_id).1)).length →
        i ∈ sched := by
      intro i hi
      apply h
      rw [hw]
      simpa using hi
    simp only [aggWithSchedule, hdev, runSched_complete _ _ hcomp, allFilled_map_some,
      agg_eq_of_device env fname device_id device hdev]

lemma flatten_map_singleton {γ : Type} : ∀ (l : List γ),
    (l.map (fun a => [a])).flatten = l := by
  intro l
  induction l with
  | nil => rfl
  | cons a l ih => simp [ih]

lemma resolutionEvents_trace {α : Type} (env : Env α) (fname device_id : String)
    (device : DeviceEntry) (hdev : env.device_registry device_id = some device) :
    resolutionEvents (_async_get_device_automations env fname device_id).2
      = buildDomains env device device_id := by
  rw [agg_eq_of_device env fname device_id device hdev]
  show resolutionEvents (((buildDomains env device device_id).map _).flatten)
    = buildDomains env device device_id
  unfold resolutionEvents
  rw [List.filterMap_flatten, List.map_map]
  have hmap : (buildDomains env device device_id).map
      ((List.filterMap fun ev =>
        match ev with
        | .getIntegration d => some d
        | .listCall _ _ => none)
        ∘ (fun d => (_async_get_device_automations_from_domain env d fname device_id).2))
      = (buildDomains env device device_id).map (fun d => [d]) := by
    apply List.map_congr_left
    intro d _
    exact resolutionEvents_from_domain env d fname device_id
  rw [hmap, flatten_map_singleton]

lemma agg_substitute_empty {α : Type} (env : Env α) (fname device_id d : String)
    (device : DeviceEntry) (hdev : env.device_registry device_id = some device)
    (habsent : (_async_get_device_automations_from_domain env d fname device_id).1
      = .ok none) :
    (_async_get_device_automations env fname device_id).1
      = aggregateFrom ((buildDomains env device device_id).map
          (fun d2 => if d2 = d then .ok (some [])
            else (_async_get_device_automations_from_domain env d2 fname device_id).1)) := by
  rw [agg_eq_of_device env fname device_id device hdev]
  show aggregateFrom _ = _
  apply aggregateFrom_map_congr
  intro d2 _
  by_cases hdd : d2 = d
  · subst hdd
    exact Or.inr ⟨habsent, by simp⟩
  · exact Or.inl (by simp [hdd])

/-- C1: for a device id that the device registry does not know, each of the
three listing handlers fails with `DeviceNotFound` as its request-level
result, and the trace of issued plugin calls (integration resolutions and
listing invocations) is empty. -/
theorem listing_fails_deviceNotFound {α : Type} (env : Env α) (msg : WsMsg)
    (h : env.device_registry msg.device_id = none) :
    websocket_device_automation_list_actions env msg
      = (.error .deviceNotFound, [])
    ∧ websocket_device_automation_list_conditions env msg
      = (.error .deviceNotFound, [])
    ∧ websocket_device_automation_list_triggers env msg
      = (.error .deviceNotFound, []) := by
  refine ⟨?_, ?_, ?_⟩ <;>
    simp only [websocket_device_automation_list_actions,
      websocket_device_automation_list_conditions,
      websocket_device_automation_list_triggers,
      _async_get_device_automations, h]

/-- Witness for C1 on the concrete environment `envMiss` and device id `D2`. -/
theorem listing_fails_deviceNotFound_witness :
    envMiss.device_registry "D2" = none
    ∧ (websocket_device_automation_list_actions envMiss
          ⟨"device_automation/action/list", "D2", 1⟩
        = (.error .deviceNotFound, [])
      ∧ websocket_device_automation_list_conditions envMiss
          ⟨"device_automation/action/list", "D2", 1⟩
        = (.error .deviceNotFound, [])
      ∧ websocket_device_automation_list_triggers envMiss
          ⟨"device_automation/action/list", "D2", 1⟩
        = (.error .deviceNotFound, [])) :=
  ⟨rfl, listing_fails_deviceNotFound envMiss
    ⟨"device_automation/action/list", "D2", 1⟩ rfl⟩

/-- C2: when one relevant domain's listing call raises and every other
relevant domain's call does not raise, the aggregation fails with exactly
that plugin error rather than returning a descriptor list. -/
theorem plugin_error_propagates {α : Type} (env : Env α)
    (fname device_id : String) (device : DeviceEntry) (d : String) (e : String)
    (hdev : env.device_registry device_id = some device)
    (hd : d ∈ buildDomains env device device_id)
    (herr : (_async_get_device_automations_from_domain env d fname device_id).1
      = .error e)
    (hothers : ∀ d2 ∈ buildDomains env device device_id, d2 ≠ d →
      listingOk (_async_get_device_automations_from_domain env d2 fname device_id).1
        = true) :
    (_async_get_device_automations env fname device_id).1
      = .error (.pluginError e) := by
  rw [agg_eq_of_device env fname device_id device hdev]
  show aggregateFrom _ = _
  have hg : gatherExcept ((buildDomains env device device_id).map
      (fun d2 => (_async_get_device_automations_from_domain env d2 fname device_id).1))
      = .error e := by
    apply gatherExcept_error_of
    · exact ⟨_, List.mem_map_of_mem _ hd, herr⟩
    · intro x hx
      obtain ⟨d2, hd2, rfl⟩ := List.mem_map.mp hx
      by_cases hdd : d2 = d
      · subst hdd
        exact Or.inl herr
      · exact Or.inr (hothers d2 hd2 hdd)
  simp [aggregateFrom, hg]

/-- Witness for C2: in `envClimate` the only relevant domain of `D3` is
`climate`, whose condition listing raises `"boom"`, and the aggregation for
`D3` fails with that error. -/
theorem plugin_error_propagates_witness :
    "climate" ∈ buildDomains envClimate deviceD3 "D3"
    ∧ (_async_get_device_automations_from_domain envClimate "climate"
        "async_get_conditions" "D3").1 = .error "boom"
    ∧ (_async_get_device_automations envClimate "async_get_conditions" "D3").1
        = .error (.pluginError "boom") :=
  ⟨by decide, by decide,
    plugin_error_propagates envClimate "async_get_conditions" "D3" deviceD3
      "climate" "boom" rfl (by decide) (by decide) (by decide)⟩

/-- C3: a domain whose integration resolution fails, whose integration has no
device-automation platform, or whose platform lacks the listing attribute for
the requested kind, fetches to `Absent` (`.ok none`, never an exception), and
the aggregated result equals the aggregation in which that domain contributes
the empty sequence. -/
theorem absent_domain_unaffected {α : Type} (env : Env α)
    (fname device_id d : String) (device : DeviceEntry)
    (hdev : env.device_registry device_id = some device)
    (hd : d ∈ buildDomains env device device_id)
    (habs : env.integrations d = none
      ∨ (∃ i, env.integrations d = some i ∧ i.platform = none)
      ∨ (∃ i p, env.integrations d = some i ∧ i.platform = some p
          ∧ p.attrs fname = none)) :
    (_async_get_device_automations_from_domain env d fname device_id).1 = .ok none
    ∧ (_async_get_device_automations env fname device_id).1
        = aggregateFrom ((buildDomains env device device_id).map
            (fun d2 => if d2 = d then .ok (some [])
              else (_async_get_device_automations_from_domain env d2 fname device_id).1)) := by
  have habsent :
      (_async_get_device_automations_from_domain env d fname device_id).1
        = .ok none := by
    rcases habs with h1 | ⟨i, h1, h2⟩ | ⟨i, p, h1, h2, h3⟩
    · simp [_async_get_device_automations_from_domain, h1]
    · simp [_async_get_device_automations_from_domain, h1, h2]
    · simp [_async_get_device_automations_from_domain, h1, h2, h3]
  exact ⟨habsent, agg_substitute_empty env fname device_id d device hdev habsent⟩

/-- Witness for C3: in `envScenario` the domain `alarm` has no integration,
its fetch is `Absent`, and the triggers aggregation for `D` equals the
aggregation with `alarm` contributing the empty sequence. -/
theorem absent_domain_unaffected_witness :
    "alarm" ∈ buildDomains envScenario deviceD "D"
    ∧ envScenario.integrations "alarm" = none
    ∧ ((_async_get_device_automations_from_domain envScenario "alarm"
          "async_get_triggers" "D").1 = .ok none
      ∧ (_async_get_device_automations envScenario "async_get_triggers" "D").1
          = aggregateFrom ((buildDomains envScenario deviceD "D").map
              (fun d2 => if d2 = "alarm" then .ok (some [])
                else (_async_get_device_automations_from_domain envScenario d2
                  "async_get_triggers" "D").1))) :=
  ⟨by decide, rfl,
    absent_domain_unaffected envScenario "async_get_triggers" "D" "alarm"
      deviceD rfl (by decide) (Or.inl rfl)⟩

/-- C4: for an existing device, the fan-out domain list is duplicate-free,
its underlying set is the union of the config-entry domains and the entity-id
domain parts, and the aggregation issues exactly one integration resolution
per domain of that list, in its enumeration order. -/
theorem domain_fanout_dedup {α : Type} (env : Env α) (fname device_id : String)
    (device : DeviceEntry)
    (hdev : env.device_registry device_id = some device) :
    (buildDomains env device device_id).Nodup
    ∧ (buildDomains env device device_id).toFinset
        = (device.config_entries.map env.config_entry_domain).toFinset
          ∪ ((env.entity_registry device_id).map
              (fun e => (split_entity_id e.entity_id).1)).toFinset
    ∧ resolutionEvents (_async_get_device_automations env fname device_id).2
        = buildDomains env device device_id :=
  ⟨buildDomains_nodup env device device_id,
   buildDomains_toFinset env device device_id,
   resolutionEvents_trace env fname device_id device hdev⟩

/-- Witness for C4 on `envScenario`: device `D` has config entries for
`alarm` and `light` and the entity `sensor.outside_temp`. -/
theorem domain_fanout_dedup_witness :
    envScenario.device_registry "D" = some deviceD
    ∧ ((buildDomains envScenario deviceD "D").Nodup
      ∧ (buildDomains envScenario deviceD "D").toFinset
          = (deviceD.config_entries.map envScenario.config_entry_domain).toFinset
            ∪ ((envScenario.entity_registry "D").map
                (fun e => (split_entity_id e.entity_id).1)).toFinset
      ∧ resolutionEvents
          (_async_get_device_automations envScenario "async_get_triggers" "D").2
          = buildDomains envScenario deviceD "D") :=
  ⟨rfl, domain_fanout_dedup envScenario "async_get_triggers" "D" deviceD rfl⟩

/-- C5: when no relevant domain's listing call raises, the aggregation
returns exactly the concatenation, across the domains in enumeration order,
of each domain's contributed descriptor sequence, preserving each plugin's
own order and neither dropping nor duplicating a descriptor. -/
theorem aggregation_concatenates {α : Type} (env : Env α)
    (fname device_id : String) (device : DeviceEntry)
    (hdev : env.device_registry device_id = some device)
    (hok : ∀ d ∈ buildDomains env device device_id,
      listingOk (_async_get_device_automations_from_domain env d fname device_id).1
        = true) :
    (_async_get_device_automations env fname device_id).1
      = .ok (((buildDomains env device device_id).map
          (fun d => contributed
            (_async_get_device_automations_from_domain env d fname device_id).1)).flatten) := by
  rw [agg_eq_of_device env fname device_id device hdev]
  show aggregateFrom _ = _
  have hall : ∀ x ∈ (buildDomains env device device_id).map
      (fun d => (_async_get_device_automations_from_domain env d fname device_id).1),
      listingOk x = true := by
    intro x hx
    obtain ⟨d, hd, rfl⟩ := List.mem_map.mp hx
    exact hok d hd
  rw [aggregateFrom_all_ok _ hall, List.map_map]
  rfl

/-- Witness for C5 on `envScenario`: no fetch raises, and the merged triggers
list for `D` is exactly the concatenation `[] ++ [1] ++ []` of the per-domain
contributions of `alarm`, `light` and `sensor`. -/
theorem aggregation_concatenates_witness :
    (∀ d ∈ buildDomains envScenario deviceD "D",
      listingOk (_async_get_device_automations_from_domain envScenario d
        "async_get_triggers" "D").1 = true)
    ∧ (_async_get_device_automations envScenario "async_get_triggers" "D").1
        = .ok (((buildDomains envScenario deviceD "D").map
            (fun d => contributed
              (_async_get_device_automations_from_domain envScenario d
                "async_get_triggers" "D").1)).flatten)
    ∧ (_async_get_device_automations envScenario "async_get_triggers" "D").1
        = .ok [1] :=
  ⟨by decide,
    aggregation_concatenates envScenario "async_get_triggers" "D" deviceD rfl
      (by decide),
    by decide⟩

/-- C6: a registered device with no config entries and no owned entities has
an empty domain set, and each of the three listing operations returns the
empty descriptor list and no error. -/
theorem no_domains_empty_result {α : Type} (env : Env α) (device_id : String)
    (device : DeviceEntry)
    (hdev : env.device_registry device_id = some device)
    (hce : device.config_entries = [])
    (hent : env.entity_registry device_id = []) :
    (_async_get_device_automations env "async_get_actions" device_id).1 = .ok []
    ∧ (_async_get_device_automations env "async_get_conditions" device_id).1 = .ok []
    ∧ (_async_get_device_automations env "async_get_triggers" device_id).1 = .ok [] := by
  have hdom : buildDomains env device device_id = [] := by
    unfold buildDomains
    rw [hce, hent]
    rfl
  refine ⟨?_, ?_, ?_⟩ <;>
  · rw [agg_eq_of_device env _ device_id device hdev]
    show aggregateFrom _ = _
    rw [hdom]
    rfl

/-- Witness for C6 on `envNoDomains` and device `D0`. -/
theorem no_domains_empty_result_witness :
    envNoDomains.device_registry "D0" = some deviceD0
    ∧ deviceD0.config_entries = []
    ∧ envNoDomains.entity_registry "D0" = []
    ∧ ((_async_get_device_automations envNoDomains "async_get_actions" "D0").1 = .ok []
      ∧ (_async_get_device_automations envNoDomains "async_get_conditions" "D0").1 = .ok []
      ∧ (_async_get_device_automations envNoDomains "async_get_triggers" "D0").1 = .ok []) :=
  ⟨rfl, rfl, rfl, no_domains_empty_result envNoDomains "D0" deviceD0 rfl rfl rfl⟩

/-- C7: under any completion order that eventually finishes every per-domain
fetch, the scheduled fan-out/fan-in produces exactly the result of fetching
the domains sequentially in enumeration order and concatenating. -/
theorem schedule_independence {α : Type} (env : Env α)
    (fname device_id : String) (sched : List Nat)
    (h : ∀ i, i < fanoutWidth env device_id → i ∈ sched) :
    aggWithSchedule env fname device_id sched
      = some (_async_get_device_automations env fname device_id).1 :=
  aggWithSchedule_eq_seq env fname device_id sched h

/-- Witness for C7: completing `envScenario`'s three fetch tasks in the order
2, 0, 1 yields the sequential aggregation result. -/
theorem schedule_independence_witness :
    (∀ i, i < fanoutWidth envScenario "D" → i ∈ [2, 0, 1])
    ∧ aggWithSchedule envScenario "async_get_triggers" "D" [2, 0, 1]
        = some (_async_get_device_automations envScenario "async_get_triggers" "D").1 :=
  ⟨by decide,
    schedule_independence envScenario "async_get_triggers" "D" [2, 0, 1] (by decide)⟩

/-- C8: two runs of the same listing request against the same external
registries and plugins, each under its own complete completion order, return
equal (hence multiset-equal) results. -/
theorem idempotent_across_schedules {α : Type} (env : Env α)
    (fname device_id : String) (sched1 sched2 : List Nat)
    (h1 : ∀ i, i < fanoutWidth env device_id → i ∈ sched1)
    (h2 : ∀ i, i < fanoutWidth env device_id → i ∈ sched2) :
    aggWithSchedule env fname device_id sched1
      = aggWithSchedule env fname device_id sched2 := by
  rw [aggWithSchedule_eq_seq env fname device_id sched1 h1,
    aggWithSchedule_eq_seq env fname device_id sched2 h2]

/-- Witness for C8: the completion orders 2,0,1 and 0,1,2 of the same request
on `envScenario` give the same result. -/
theorem idempotent_across_schedules_witness :
    (∀ i, i < fanoutWidth envScenario "D" → i ∈ [2, 0, 1])
    ∧ (∀ i, i < fanoutWidth envScenario "D" → i ∈ [0, 1, 2])
    ∧ aggWithSchedule envScenario "async_get_triggers" "D" [2, 0, 1]
        = aggWithSchedule envScenario "async_get_triggers" "D" [0, 1, 2] :=
  ⟨by decide, by decide,
    idempotent_across_schedules envScenario "async_get_triggers" "D"
      [2, 0, 1] [0, 1, 2] (by decide) (by decide)⟩

/-- C9: a domain whose platform exposes the listing operation but whose
invocation returns `None` is skipped exactly like an absent domain: its fetch
is `.ok none`, no error is raised for it, and the aggregation equals the
aggregation in which that domain contributes the empty sequence. -/
theorem none_result_skipped {α : Type} (env : Env α)
    (fname device_id d : String) (device : DeviceEntry)
    (i : Integration α) (p : Platform α) (op : String → ListingResult α)
    (hdev : env.device_registry device_id = some device)
    (hd : d ∈ buildDomains env device device_id)
    (hi : env.integrations d = some i) (hp : i.platform = some p)
    (hop : p.attrs fname = some op) (hnone : op device_id = .ok none) :
    (_async_get_device_automations_from_domain env d fname device_id).1 = .ok none
    ∧ (_async_get_device_automations env fname device_id).1
        = aggregateFrom ((buildDomains env device device_id).map
            (fun d2 => if d2 = d then .ok (some [])
              else (_async_get_device_automations_from_domain env d2 fname device_id).1)) := by
  have habsent :
      (_async_get_device_automations_from_domain env d fname device_id).1
        = .ok none := by
    simp [_async_get_device_automations_from_domain, hi, hp, hop, hnone]
  exact ⟨habsent, agg_substitute_empty env fname device_id d device hdev habsent⟩

/-- Witness for C9: in `envNoneOp` the domain `humid` exposes the action
listing but returns `None`; the request still returns `lamp`'s descriptor. -/
theorem none_result_skipped_witness :
    "humid" ∈ buildDomains envNoneOp deviceD9 "D9"
    ∧ ((_async_get_device_automations_from_domain envNoneOp "humid"
          "async_get_actions" "D9").1 = .ok none
      ∧ (_async_get_device_automations envNoneOp "async_get_actions" "D9").1
          = aggregateFrom ((buildDomains envNoneOp deviceD9 "D9").map
              (fun d2 => if d2 = "humid" then .ok (some [])
                else (_async_get_device_automations_from_domain envNoneOp d2
                  "async_get_actions" "D9").1)))
    ∧ (_async_get_device_automations envNoneOp "async_get_actions" "D9").1
        = .ok [7] :=
  ⟨by decide,
    none_result_skipped envNoneOp "async_get_actions" "D9" "humid" deviceD9
      ⟨some ⟨fun f => if f = "async_get_actions" then some (fun _ => .ok none) else none⟩⟩
      ⟨fun f => if f = "async_get_actions" then some (fun _ => .ok none) else none⟩
      (fun _ => .ok none)
      rfl (by decide) rfl rfl rfl rfl,
    by decide⟩

/-- C10: the shape validation of each of the three handlers accepts any
string device id, the empty string included, and each handler invokes the
aggregation with that string unchanged. -/
theorem handlers_accept_any_device_id {α : Type} (env : Env α)
    (device_id : String) (i : Nat) :
    (schemaAccepts "device_automation/action/list"
        ⟨"device_automation/action/list", device_id, i⟩ = true
      ∧ websocket_device_automation_list_actions env
          ⟨"device_automation/action/list", device_id, i⟩
        = _async_get_device_automations env "async_get_actions" device_id)
    ∧ (schemaAccepts "device_automation/condition/list"
        ⟨"device_automation/condition/list", device_id, i⟩ = true
      ∧ websocket_device_automation_list_conditions env
          ⟨"device_automation/condition/list", device_id, i⟩
        = _async_get_device_automations env "async_get_conditions" device_id)
    ∧ (schemaAccepts "device_automation/trigger/list"
        ⟨"device_automation/trigger/list", device_id, i⟩ = true
      ∧ websocket_device_automation_list_triggers env
          ⟨"device_automation/trigger/list", device_id, i⟩
        = _async_get_device_automations env "async_get_triggers" device_id) := by
  refine ⟨⟨?_, rfl⟩, ⟨?_, rfl⟩, ⟨?_, rfl⟩⟩ <;> simp [schemaAccepts]

end DeviceAutomation
